import Mathlib

/-!
Verification of the watch-activity aggregation and membership-standing engine
of the discord-media-bot repository (src/bot.py, src/database.py).

The Python code is shallowly embedded: dictionaries built by the per-backend
history fetchers become structures, the aggregation loops become folds, the
SQL tables become lists of row structures and the SQL statements become
list-level operations on them.  Machine dates (SQL DATE values) are embedded
as integers (day numbers); the `YYYY-MM-DD` strings used as dictionary keys
stay strings.
-/

namespace MediaBot

/-- One entry of the list built by `JellyfinAPI.get_watch_history` /
`EmbyAPI.get_watch_history` (bot.py lines 366-373 and 729-736): the dict
`{title, type, series, runtime_seconds, played_date, play_count}`.
`played_date` is `Option`al because the dict value can be `None`
(`stats` loops guard on its truthiness). -/
structure HistoryItem where
  title : String
  itemType : String
  series : String
  runtime_seconds : Nat
  played_date : Option String
  play_count : Nat
deriving DecidableEq, Repr

/-- The `stats` dictionary of `get_playback_stats` (bot.py lines 381-387):
`total_seconds`, `total_plays`, `movies`, `episodes` and the `by_date`
mapping.  The Python dict `by_date` is embedded as its lookup function
together with `date_keys`, its key list in insertion order. -/
structure PlaybackStats where
  total_seconds : Nat
  total_plays : Nat
  movies : Nat
  episodes : Nat
  by_date : String → Nat
  date_keys : List String

/-- The freshly initialised `stats` dict of `get_playback_stats`. -/
def emptyStats : PlaybackStats :=
  { total_seconds := 0, total_plays := 0, movies := 0, episodes := 0,
    by_date := fun _ => 0, date_keys := [] }

/-- One iteration of the aggregation loop of `get_playback_stats`
(bot.py lines 391-408, identically 754-771):
`total_seconds += runtime * play_count`; `total_plays += play_count`;
`movies`/`episodes` incremented by `play_count` on the `type` test
(`if ... elif ...`); and, when `played_date` is truthy (non-`None`,
non-empty), `by_date[played_date] += runtime` — the runtime alone,
not `runtime * play_count`. -/
def statsStep (s : PlaybackStats) (item : HistoryItem) : PlaybackStats :=
  let runtime := item.runtime_seconds
  let pc := item.play_count
  let s1 := { s with total_seconds := s.total_seconds + runtime * pc,
                     total_plays := s.total_plays + pc }
  let s2 :=
    if item.itemType = "Movie" then { s1 with movies := s1.movies + pc }
    else if item.itemType = "Episode" then { s1 with episodes := s1.episodes + pc }
    else s1
  match item.played_date with
  | some d =>
      if d ≠ "" then
        { s2 with
          by_date := fun x => if x = d then s2.by_date x + runtime else s2.by_date x,
          date_keys := if s2.date_keys.contains d then s2.date_keys else s2.date_keys ++ [d] }
      else s2
  | none => s2

/-- `get_playback_stats` (bot.py lines 379-410 for Jellyfin, 742-773 for
Emby): fold the aggregation step over the fetched history list. -/
def get_playback_stats (history : List HistoryItem) : PlaybackStats :=
  history.foldl statsStep emptyStats

/-- The `UserData` sub-dictionary of a raw Jellyfin/Emby item
(`item.get("UserData", {})`). -/
structure RawUserData where
  lastPlayedDate : Option String
  playCount : Option Nat
deriving DecidableEq, Repr

/-- A raw item returned by the Jellyfin/Emby `/Users/{id}/Items` endpoint,
restricted to the fields the fetcher reads: `Name`, `Type`, `SeriesName`,
`RunTimeTicks`, `DateCreated` (requested in `Fields` but never read back),
and `UserData`. -/
structure RawItem where
  name : Option String
  itemType : Option String
  seriesName : Option String
  runTimeTicks : Option Nat
  dateCreated : Option String
  userData : RawUserData
deriving DecidableEq, Repr

/-- `runtime_seconds = runtime_ticks // 10000000 if runtime_ticks else 0`
(bot.py line 360 / 725), with `item.get("RunTimeTicks", 0)`. -/
def resolved_runtime (item : RawItem) : Nat :=
  let runtime_ticks := item.runTimeTicks.getD 0
  if runtime_ticks ≠ 0 then runtime_ticks / 10000000 else 0

/-- The per-item body of `JellyfinAPI.get_watch_history` /
`EmbyAPI.get_watch_history` (bot.py lines 355-373 / 722-736): the history
dict is appended only under `if last_played and runtime_seconds > 0`
(`last_played` truthy means present and non-empty); `played_date` is
`last_played[:10]`; `play_count` is `user_data.get("PlayCount", 1)` —
the default 1 applies only when the key is absent. -/
def normalize_item (item : RawItem) : Option HistoryItem :=
  let runtime_seconds := resolved_runtime item
  match item.userData.lastPlayedDate with
  | some lp =>
      if lp ≠ "" ∧ runtime_seconds > 0 then
        some { title := item.name.getD "Unknown",
               itemType := item.itemType.getD "Unknown",
               series := item.seriesName.getD "",
               runtime_seconds := runtime_seconds,
               played_date := some (lp.take 10),
               play_count := item.userData.playCount.getD 1 }
      else none
  | none => none

/-- `get_watch_history` over a list of raw items: the loop appends the
normalized dict exactly when the guard holds. -/
def get_watch_history (items : List RawItem) : List HistoryItem :=
  items.filterMap normalize_item

/-! ## The `watchtime` table (database.py) -/

/-- One row of the `watchtime` table (database.py lines 81-90 / 172-182),
restricted to the columns the queries read.  `watch_date` is a SQL DATE,
embedded as an integer day number. -/
structure WatchRow where
  user_id : Nat
  server_type : String
  watch_date : Int
  watch_seconds : Nat
deriving DecidableEq, Repr

/-- The `(user_id, server_type, watch_date)` unique-key test of the
`watchtime` table. -/
def rowKeyMatch (r : WatchRow) (uid : Nat) (st : String) (d : Int) : Bool :=
  r.user_id == uid && r.server_type == st && r.watch_date == d

/-- The `DO UPDATE SET watch_seconds = watch_seconds + seconds` row
transform of `add_watchtime`: rows under the conflicting key gain
`seconds`, every other row is untouched. -/
def upsertUpdate (uid : Nat) (st : String) (d : Int) (seconds : Nat)
    (r : WatchRow) : WatchRow :=
  if rowKeyMatch r uid st d then { r with watch_seconds := r.watch_seconds + seconds }
  else r

/-- `add_watchtime` (database.py lines 400-425): `INSERT ... ON CONFLICT
(user_id, server_type, watch_date) DO UPDATE SET watch_seconds =
watch_seconds + seconds` — add to the existing row for the key if there is
one, otherwise insert a new row carrying `seconds`. -/
def add_watchtime (rows : List WatchRow) (uid : Nat) (st : String) (d : Int)
    (seconds : Nat) : List WatchRow :=
  if rows.any (fun r => rowKeyMatch r uid st d) then
    rows.map (upsertUpdate uid st d seconds)
  else rows ++ [⟨uid, st, d, seconds⟩]

/-- `get_watchtime` (database.py lines 428-459): `SELECT COALESCE(SUM(
watch_seconds),0) FROM watchtime WHERE user_id = ? AND watch_date >=
today - days` (`date('now', '-{days} days')` resp. `CURRENT_DATE -
INTERVAL '{days} days'`), optionally also filtering on `server_type`.
Note the single, inclusive lower bound `today - days` and the absence of
an upper bound. -/
def get_watchtime (rows : List WatchRow) (uid : Nat) (server_type : Option String)
    (days : Nat) (today : Int) : Nat :=
  ((rows.filter (fun r =>
      r.user_id == uid && decide (today - (days : Int) ≤ r.watch_date) &&
      (match server_type with
       | some st => r.server_type == st
       | none => true))).map (fun r => r.watch_seconds)).sum

/-- Sum of the stored seconds of `uid`'s buckets, over all sources, whose
date lies in the inclusive window `[lo, hi]`.  Used to compare
`get_watchtime` with the window the spec describes. -/
def sumWindow (rows : List WatchRow) (uid : Nat) (lo hi : Int) : Nat :=
  ((rows.filter (fun r =>
      r.user_id == uid && decide (lo ≤ r.watch_date) && decide (r.watch_date ≤ hi))).map
    (fun r => r.watch_seconds)).sum

/-- The per-user aggregate of `get_users_at_risk` (database.py lines
783-813): `COALESCE(SUM(w.watch_seconds), 0)` over the user's rows with
`watch_date >= today - days`, all sources together. -/
def user_total_watchtime_window (rows : List WatchRow) (uid : Nat) (days : Nat)
    (today : Int) : Nat :=
  ((rows.filter (fun r =>
      r.user_id == uid && decide (today - (days : Int) ≤ r.watch_date))).map
    (fun r => r.watch_seconds)).sum

/-- `get_users_at_risk` (database.py lines 783-813): every user whose
windowed total is strictly below `threshold_hours * 3600` (the `HAVING
... < threshold_seconds` clause).  The `ORDER BY total_watchtime ASC` of
the source only orders the presentation and is not modelled; membership
in the result is what the queries decide. -/
def get_users_at_risk (users : List Nat) (rows : List WatchRow)
    (threshold_hours : Nat) (days : Nat) (today : Int) : List Nat :=
  users.filter (fun uid =>
    decide (user_total_watchtime_window rows uid days today < threshold_hours * 3600))

/-! ## The `subscriptions` table (database.py) -/

/-- One row of the `subscriptions` table (database.py lines 93-107 /
185-200), restricted to the columns the immunity queries read.
`end_date` is a SQL TIMESTAMP, embedded as an integer. -/
structure SubscriptionRow where
  user_id : Nat
  plan_type : String
  status : String
  end_date : Int
deriving DecidableEq, Repr

/-- `get_active_subscription` (database.py lines 544-564): the row for
`user_id` with `status = 'active' AND end_date > now`, `ORDER BY end_date
DESC LIMIT 1` (the fold picks the row with the greatest `end_date`). -/
def get_active_subscription (subs : List SubscriptionRow) (uid : Nat) (now : Int) :
    Option SubscriptionRow :=
  (subs.filter (fun r =>
      r.user_id == uid && r.status == "active" && decide (now < r.end_date))).foldl
    (fun best r =>
      match best with
      | none => some r
      | some b => if b.end_date < r.end_date then some r else some b)
    none

/-- `has_active_subscription` (database.py lines 582-584). -/
def has_active_subscription (subs : List SubscriptionRow) (uid : Nat) (now : Int) : Bool :=
  (get_active_subscription subs uid now).isSome

/-- Modelled from the spec: `has_ever_subscribed` is called in bot.py
(lines 1287, 1475, 2080, 2639) but database.py never defines it — the
definition is missing from the repository.  The spec (§3 Subscription):
an account "has ever subscribed" if any subscription row, active or
historical, exists for it. -/
def has_ever_subscribed (subs : List SubscriptionRow) (uid : Nat) : Bool :=
  subs.any (fun r => r.user_id == uid)

/-- The membership standing of the spec (§4.5). -/
inductive Standing where
  | Safe
  | AtRisk
  | Immune
deriving DecidableEq, Repr

/-- Modelled from the spec: §4.5 `evaluate` does not exist as one function
in the source; its pieces do.  Immunity precedence follows
`check_subscriber` (bot.py lines 2639-2654: the `has_ever_subscribed`
result alone decides "Immune", watched time never consulted), and the
threshold test follows `get_users_at_risk` (database.py lines 783-813:
at risk iff the windowed, all-source total is strictly below
`threshold_hours * 3600`). -/
def evaluate_standing (subs : List SubscriptionRow) (rows : List WatchRow) (uid : Nat)
    (threshold_hours : Nat) (days : Nat) (today : Int) : Standing :=
  if has_ever_subscribed subs uid then .Immune
  else if user_total_watchtime_window rows uid days today < threshold_hours * 3600 then .AtRisk
  else .Safe

/-! ## Attribute resolution on the database module

bot.py accesses the database module through `db.<name>(...)`.  Python
resolves `<name>` against the module's defined top-level functions; a name
that is not among them raises `AttributeError` at the call site.  The
module's defined function names are transcribed below, in source order. -/

/-- The top-level functions database.py defines (lines 24-836, in order). -/
def databaseDefs : List String :=
  ["get_connection", "get_cursor", "get_placeholder", "init_database",
   "run_migrations", "get_user_by_discord_id", "create_user",
   "get_or_create_user", "link_jellyfin_account", "link_emby_account",
   "link_plex_account", "unlink_account", "add_watchtime", "get_watchtime",
   "get_total_watchtime", "get_watchtime_leaderboard", "create_subscription",
   "get_active_subscription", "cancel_subscription", "has_active_subscription",
   "set_library_access", "get_library_access", "is_library_enabled",
   "create_invite_code", "use_invite_code", "is_valid_invite_code",
   "log_action", "get_audit_log", "seconds_to_hours", "get_all_users",
   "get_users_at_risk", "delete_user"]

/-- How a bot command run can end: producing its report, returning early
on the not-linked / not-found guard, or raising `AttributeError` for an
undefined database-module name. -/
inductive CmdOutcome where
  | report
  | earlyReturn
  | attrError (name : String)
deriving DecidableEq, Repr

/-- One `db.<name>(...)` call: continue with `k` when database.py defines
`name`, otherwise raise `AttributeError name`. -/
def dbCall (name : String) (k : CmdOutcome) : CmdOutcome :=
  if databaseDefs.contains name then k else .attrError name

/-- The database-call sequence of the `watchtime` command (bot.py lines
1271-1386): `get_user_by_discord_id` (1277), early return when no row
(1279-1284), then `has_ever_subscribed` (1287) and `get_daily_watchtime`
(1302) before the report embed is built.  The adapter-side
`get_user_by_discord_id` lookups used for the display name (1314-1328)
resolve fine and are elided. -/
def watchtime_command (linked : Bool) : CmdOutcome :=
  dbCall "get_user_by_discord_id"
    (if linked then
      dbCall "has_ever_subscribed" (dbCall "get_daily_watchtime" .report)
     else .earlyReturn)

/-- The database-call sequence of the `totaltime` command (bot.py lines
1426-1530): `get_user_by_discord_id` (1432), early return when no row
(1434-1439), then `get_all_time_watchtime` (1463), `get_monthly_watchtime`
(1472) and `has_ever_subscribed` (1475) before the report embed. -/
def totaltime_command (linked : Bool) : CmdOutcome :=
  dbCall "get_user_by_discord_id"
    (if linked then
      dbCall "get_all_time_watchtime"
        (dbCall "get_monthly_watchtime" (dbCall "has_ever_subscribed" .report))
     else .earlyReturn)

/-- The database-call sequence of the `checksub` command (bot.py lines
2622-2656): `get_user_by_discord_id` (2631), early return when no row
(2632-2636), then `has_ever_subscribed` (2639) and
`get_active_subscription` (2640) before the standing embed. -/
def checksub_command (found : Bool) : CmdOutcome :=
  dbCall "get_user_by_discord_id"
    (if found then
      dbCall "has_ever_subscribed" (dbCall "get_active_subscription" .report)
     else .earlyReturn)

/-- The sync-all form of the `syncwatch` command (bot.py lines 2675-2681):
with no member argument it first calls `db.get_all_linked_users()` (2680),
outside any try/except, before the per-user loop can run. -/
def sync_all_command : CmdOutcome :=
  dbCall "get_all_linked_users" .report

/-! ## The sync run (bot.py `sync_watchtime`, lines 2659-2795)

The per-`(account, source)` fetch is the only failure source modelled:
`get_watch_history` wraps its whole body in try/except and returns the
list built so far — empty on failure (bot.py lines 336-377, 704-740) —
so a fetch failure never propagates into the sync loop, and the loop's own
`except` branch (lines 2757-2759, the only writer of `failed_users`) is
unreachable from a fetch failure.  The model covers users without Plex
identities: for them the Plex/Tautulli branch (guarded by
`plex_username`/`plex_email`, line 2722) is skipped in the source. -/

/-- The outcome of one raw per-`(account, source)` fetch. -/
inductive FetchResult where
  | ok (history : List HistoryItem)
  | failed
deriving DecidableEq, Repr

/-- What `get_watch_history` hands to the aggregation after a fetch: the
fetched list on success, the empty list on failure (the function's
try/except swallows the error and returns the `history` built so far). -/
def fetched_history : FetchResult → List HistoryItem
  | .ok h => h
  | .failed => []

/-- Which source adapters the deployment has configured
(`bot.jellyfin` / `bot.emby`, bot.py lines 2701, 2712). -/
structure SyncConfig where
  jellyfin : Bool
  emby : Bool
deriving DecidableEq, Repr

/-- One user the sync loop visits: the Discord id, whether
`get_user_by_discord_id` finds a row (`inDb`), the database user id, which
backend ids the row carries, and the raw fetch outcomes of this run. -/
structure SyncUser where
  discordId : Nat
  inDb : Bool
  userId : Nat
  jellyfinLinked : Bool
  embyLinked : Bool
  jellyfinFetch : FetchResult
  embyFetch : FetchResult
deriving DecidableEq, Repr

/-- The run summary `sync_watchtime` accumulates (bot.py lines 2671-2673,
2752-2759): the synced users, the failed users (written only by the
`except` branch), the total seconds imported (the source accumulates
`total_hours`; seconds are kept here to stay in integers — positive hours
and positive seconds coincide), and the database state. -/
structure SyncSummary where
  synced : List Nat
  failed : List Nat
  totalSeconds : Nat
  db : List WatchRow
deriving DecidableEq, Repr

/-- The per-date import loop (bot.py lines 2706-2707 / 2716-2717):
`for date_str, seconds in stats["by_date"].items():
add_watchtime(user_id, server, seconds, date_str)`.  `dateVal` is the
database's reading of the `YYYY-MM-DD` string as a DATE value. -/
def import_by_date (db : List WatchRow) (uid : Nat) (st : String)
    (stats : PlaybackStats) (dateVal : String → Int) : List WatchRow :=
  stats.date_keys.foldl (fun db d => add_watchtime db uid st (dateVal d) (stats.by_date d)) db

/-- One source branch of the sync body (bot.py lines 2700-2709 for
Jellyfin, 2711-2719 for Emby): when the adapter is configured and the user
row carries the backend id, aggregate the fetched history, import the
per-date map, and add `total_seconds` to the user's tally; otherwise the
branch is skipped. -/
def sync_one_source (configured linked : Bool) (fr : FetchResult) (st : String)
    (uid : Nat) (db : List WatchRow) (dateVal : String → Int) : List WatchRow × Nat :=
  if configured && linked then
    let stats := get_playback_stats (fetched_history fr)
    (import_by_date db uid st stats dateVal, stats.total_seconds)
  else (db, 0)

/-- The try-block of the per-user sync body (bot.py lines 2699-2719):
Jellyfin branch, then Emby branch, accumulating the user's seconds. -/
def sync_one_user (cfg : SyncConfig) (u : SyncUser) (db : List WatchRow)
    (dateVal : String → Int) : List WatchRow × Nat :=
  let j := sync_one_source cfg.jellyfin u.jellyfinLinked u.jellyfinFetch "jellyfin"
             u.userId db dateVal
  let e := sync_one_source cfg.emby u.embyLinked u.embyFetch "emby"
             u.userId j.1 dateVal
  (e.1, j.2 + e.2)

/-- One iteration of the sync loop (bot.py lines 2686-2759): skip users
with no database row (`continue`, line 2694); run the per-user body; a
user with positive watched time is appended to the synced list and the
total grows (lines 2752-2754).  No modelled step raises, so the `except`
branch that would append to `failed_users` never runs. -/
def sync_loop_step (cfg : SyncConfig) (dateVal : String → Int)
    (acc : SyncSummary) (u : SyncUser) : SyncSummary :=
  if u.inDb then
    let r := sync_one_user cfg u acc.db dateVal
    { acc with
      db := r.1,
      synced := if 0 < r.2 then acc.synced ++ [u.discordId] else acc.synced,
      totalSeconds := if 0 < r.2 then acc.totalSeconds + r.2 else acc.totalSeconds }
  else acc

/-- A whole sync run over an explicit user list (the `!syncwatch @user`
form resolves to a one-element list; bot.py lines 2675-2677). -/
def sync_run (cfg : SyncConfig) (users : List SyncUser) (db : List WatchRow)
    (dateVal : String → Int) : SyncSummary :=
  users.foldl (sync_loop_step cfg dateVal) ⟨[], [], 0, db⟩

/-! ## Closed forms of the aggregation fold -/

/-- Sum of `runtime_seconds * play_count` over a history list. -/
def totalSecondsOf (l : List HistoryItem) : Nat :=
  (l.map (fun it => it.runtime_seconds * it.play_count)).sum

/-- Sum of `play_count` over a history list. -/
def totalPlaysOf (l : List HistoryItem) : Nat :=
  (l.map (fun it => it.play_count)).sum

/-- Sum of `play_count` over the items typed `"Movie"`. -/
def moviesOf (l : List HistoryItem) : Nat :=
  (l.map (fun it => if it.itemType = "Movie" then it.play_count else 0)).sum

/-- Sum of `play_count` over the items typed `"Episode"` (the `elif` of
the source fires exactly for those, since a type is never both). -/
def episodesOf (l : List HistoryItem) : Nat :=
  (l.map (fun it => if it.itemType = "Episode" then it.play_count else 0)).sum

/-- Sum of `runtime_seconds` — not `runtime_seconds * play_count` — over
the items attributed to date `d` (a truthy `played_date` equal to `d`). -/
def byDateOf (l : List HistoryItem) (d : String) : Nat :=
  (l.map (fun it => if it.played_date = some d ∧ d ≠ "" then it.runtime_seconds else 0)).sum

/-! ## Per-key views of the `watchtime` table -/

/-- Number of rows stored under a `(user_id, server_type, watch_date)` key. -/
def bucket_count (rows : List WatchRow) (uid : Nat) (st : String) (d : Int) : Nat :=
  rows.countP (fun r => rowKeyMatch r uid st d)

/-- Seconds stored under a `(user_id, server_type, watch_date)` key. -/
def bucket_seconds (rows : List WatchRow) (uid : Nat) (st : String) (d : Int) : Nat :=
  ((rows.filter (fun r => rowKeyMatch r uid st d)).map (fun r => r.watch_seconds)).sum

/-! ## Concrete inputs used by the claim instances -/

/-- A history item watched twice: 10 seconds runtime, play count 2. -/
def c1item : HistoryItem := ⟨"X", "Movie", "", 10, some "2024-01-05", 2⟩

/-- A bucket dated exactly `today - days` (with `today = 100`, `days = 1`). -/
def c4row : WatchRow := ⟨1, "jellyfin", 99, 3600⟩

/-- Buckets of one account on two sources, both inside the 30-day window
ending at day 100. -/
def c4rows : List WatchRow := [⟨1, "jellyfin", 95, 3600⟩, ⟨1, "emby", 90, 1800⟩]

/-- A raw record with 7200 seconds of resolved runtime and a creation
date, but no `LastPlayedDate`. -/
def c5raw : RawItem :=
  { name := some "X", itemType := some "Movie", seriesName := none,
    runTimeTicks := some 72000000000, dateCreated := some "2024-01-01T00:00:00Z",
    userData := { lastPlayedDate := none, playCount := some 1 } }

/-- A raw record with a `LastPlayedDate` timestamp. -/
def c5raw2 : RawItem :=
  { name := some "Y", itemType := some "Movie", seriesName := none,
    runTimeTicks := some 72000000000, dateCreated := none,
    userData := { lastPlayedDate := some "2024-01-05T10:00:00Z", playCount := some 1 } }

/-- The event `normalize_item` emits for `c5raw2`. -/
def c5event : HistoryItem := ⟨"Y", "Movie", "", 7200, some "2024-01-05", 1⟩

/-- A raw record reported as played with an explicit `PlayCount` of 0. -/
def c6raw : RawItem :=
  { name := some "Z", itemType := some "Movie", seriesName := none,
    runTimeTicks := some 1000000000, dateCreated := none,
    userData := { lastPlayedDate := some "2024-01-05T00:00:00Z", playCount := some 0 } }

/-- The event `normalize_item` emits for `c6raw`: play count 0, kept. -/
def c6event : HistoryItem := ⟨"Z", "Movie", "", 100, some "2024-01-05", 0⟩

/-- A lapsed subscription row: cancelled, and expired at time 50. -/
def c2sub : SubscriptionRow := ⟨1, "premium", "cancelled", 50⟩

/-- A successfully fetched movie watch: 7200 seconds, one play. -/
def c7item : HistoryItem := ⟨"X", "Movie", "", 7200, some "2024-01-05", 1⟩

/-- A deployment with Jellyfin and Emby configured. -/
def c7cfg : SyncConfig := ⟨true, true⟩

/-- A user linked to both sources whose Jellyfin fetch fails and whose
Emby fetch returns one movie. -/
def c7user : SyncUser := ⟨7, true, 1, true, true, .failed, .ok [c7item]⟩

/-- A concrete date reading for the run. -/
def c7dateVal : String → Int := fun _ => 0

/-! ## Lemmas about one aggregation step -/

theorem statsStep_total_seconds (s : PlaybackStats) (it : HistoryItem) :
    (statsStep s it).total_seconds = s.total_seconds + it.runtime_seconds * it.play_count := by
  rcases it with ⟨t, ty, sr, rt, pd, pc⟩
  cases pd <;> simp only [statsStep] <;> split_ifs <;> rfl

theorem statsStep_total_plays (s : PlaybackStats) (it : HistoryItem) :
    (statsStep s it).total_plays = s.total_plays + it.play_count := by
  rcases it with ⟨t, ty, sr, rt, pd, pc⟩
  cases pd <;> simp only [statsStep] <;> split_ifs <;> rfl

theorem statsStep_movies (s : PlaybackStats) (it : HistoryItem) :
    (statsStep s it).movies =
      s.movies + (if it.itemType = "Movie" then it.play_count else 0) := by
  rcases it with ⟨t, ty, sr, rt, pd, pc⟩
  cases pd <;> simp only [statsStep] <;> split_ifs <;> simp

theorem statsStep_episodes (s : PlaybackStats) (it : HistoryItem) :
    (statsStep s it).episodes =
      s.episodes + (if it.itemType = "Episode" then it.play_count else 0) := by
  rcases it with ⟨t, ty, sr, rt, pd, pc⟩
  cases pd <;> simp only [statsStep] <;> split_ifs <;> simp_all

theorem statsStep_by_date (s : PlaybackStats) (it : HistoryItem) (d : String) :
    (statsStep s it).by_date d =
      s.by_date d +
        (if it.played_date = some d ∧ d ≠ "" then it.runtime_seconds else 0) := by
  rcases it with ⟨t, ty, sr, rt, pd, pc⟩
  cases pd with
  | none => simp only [statsStep] <;> split_ifs <;> simp_all
  | some d' =>
    simp only [statsStep]
    split_ifs <;> (try simp_all) <;> (try aesop)

theorem statsStep_date_keys_mem (s : PlaybackStats) (it : HistoryItem) (x : String) :
    x ∈ (statsStep s it).date_keys ↔
      x ∈ s.date_keys ∨ (it.played_date = some x ∧ x ≠ "") := by
  rcases it with ⟨t, ty, sr, rt, pd, pc⟩
  cases pd with
  | none => simp only [statsStep] <;> split_ifs <;> simp_all
  | some d' =>
    simp only [statsStep]
    split_ifs <;> (try simp_all [List.mem_append]) <;> (try aesop)

theorem statsStep_date_keys_nodup (s : PlaybackStats) (it : HistoryItem)
    (h : s.date_keys.Nodup) : (statsStep s it).date_keys.Nodup := by
  rcases it with ⟨t, ty, sr, rt, pd, pc⟩
  cases pd with
  | none => simpa only [statsStep] using by split_ifs <;> simpa
  | some d' =>
    simp only [statsStep]
    split_ifs <;> simp_all [List.nodup_append]

/-! ## Lemmas about the whole aggregation fold -/

theorem foldl_statsStep_total_seconds (l : List HistoryItem) (s : PlaybackStats) :
    (l.foldl statsStep s).total_seconds = s.total_seconds + totalSecondsOf l := by
  induction l generalizing s with
  | nil => simp [totalSecondsOf]
  | cons it l ih =>
    simp [List.foldl_cons, ih, statsStep_total_seconds, totalSecondsOf, Nat.add_assoc]

theorem foldl_statsStep_total_plays (l : List HistoryItem) (s : PlaybackStats) :
    (l.foldl statsStep s).total_plays = s.total_plays + totalPlaysOf l := by
  induction l generalizing s with
  | nil => simp [totalPlaysOf]
  | cons it l ih =>
    simp [List.foldl_cons, ih, statsStep_total_plays, totalPlaysOf, Nat.add_assoc]

theorem foldl_statsStep_movies (l : List HistoryItem) (s : PlaybackStats) :
    (l.foldl statsStep s).movies = s.movies + moviesOf l := by
  induction l generalizing s with
  | nil => simp [moviesOf]
  | cons it l ih =>
    simp [List.foldl_cons, ih, statsStep_movies, moviesOf, Nat.add_assoc]

theorem foldl_statsStep_episodes (l : List HistoryItem) (s : PlaybackStats) :
    (l.foldl statsStep s).episodes = s.episodes + episodesOf l := by
  induction l generalizing s with
  | nil => simp [episodesOf]
  | cons it l ih =>
    simp [List.foldl_cons, ih, statsStep_episodes, episodesOf, Nat.add_assoc]

theorem foldl_statsStep_by_date (l : List HistoryItem) (s : PlaybackStats) (d : String) :
    (l.foldl statsStep s).by_date d = s.by_date d + byDateOf l d := by
  induction l generalizing s with
  | nil => simp [byDateOf]
  | cons it l ih =>
    simp [List.foldl_cons, ih, statsStep_by_date, byDateOf, Nat.add_assoc]

theorem foldl_statsStep_date_keys_mem (l : List HistoryItem) (s : PlaybackStats)
    (x : String) :
    x ∈ (l.foldl statsStep s).date_keys ↔
      x ∈ s.date_keys ∨ ∃ it, it ∈ l ∧ it.played_date = some x ∧ x ≠ "" := by
  induction l generalizing s with
  | nil => simp
  | cons it l ih =>
    rw [List.foldl_cons, ih, statsStep_date_keys_mem]
    simp only [List.mem_cons]
    constructor
    · rintro ((h | h) | ⟨a, ha, hp⟩)
      · exact Or.inl h
      · exact Or.inr ⟨it, Or.inl rfl, h⟩
      · exact Or.inr ⟨a, Or.inr ha, hp⟩
    · rintro (h | ⟨a, (rfl | ha), hp⟩)
      · exact Or.inl (Or.inl h)
      · exact Or.inl (Or.inr hp)
      · exact Or.inr ⟨a, ha, hp⟩

theorem foldl_statsStep_date_keys_nodup (l : List HistoryItem) (s : PlaybackStats)
    (h : s.date_keys.Nodup) : (l.foldl statsStep s).date_keys.Nodup := by
  induction l generalizing s with
  | nil => exact h
  | cons it l ih => exact ih _ (statsStep_date_keys_nodup s it h)

theorem get_playback_stats_total_seconds (l : List HistoryItem) :
    (get_playback_stats l).total_seconds = totalSecondsOf l := by
  simpa [get_playback_stats, emptyStats] using foldl_statsStep_total_seconds l emptyStats

theorem get_playback_stats_total_plays (l : List HistoryItem) :
    (get_playback_stats l).total_plays = totalPlaysOf l := by
  simpa [get_playback_stats, emptyStats] using foldl_statsStep_total_plays l emptyStats

theorem get_playback_stats_movies (l : List HistoryItem) :
    (get_playback_stats l).movies = moviesOf l := by
  simpa [get_playback_stats, emptyStats] using foldl_statsStep_movies l emptyStats

theorem get_playback_stats_episodes (l : List HistoryItem) :
    (get_playback_stats l).episodes = episodesOf l := by
  simpa [get_playback_stats, emptyStats] using foldl_statsStep_episodes l emptyStats

theorem get_playback_stats_by_date (l : List HistoryItem) (d : String) :
    (get_playback_stats l).by_date d = byDateOf l d := by
  simpa [get_playback_stats, emptyStats] using foldl_statsStep_by_date l emptyStats d

theorem get_playback_stats_date_keys_mem (l : List HistoryItem) (x : String) :
    x ∈ (get_playback_stats l).date_keys ↔
      ∃ it, it ∈ l ∧ it.played_date = some x ∧ x ≠ "" := by
  simpa [get_playback_stats, emptyStats] using foldl_statsStep_date_keys_mem l emptyStats x

theorem get_playback_stats_date_keys_nodup (l : List HistoryItem) :
    (get_playback_stats l).date_keys.Nodup :=
  foldl_statsStep_date_keys_nodup l emptyStats (by simp [emptyStats])

/-! ## Lemmas about the normalizer -/

theorem normalize_item_none_date (item : RawItem)
    (h : item.userData.lastPlayedDate = none) : normalize_item item = none := by
  simp [normalize_item, h]

theorem normalize_item_some (item : RawItem) (e : HistoryItem)
    (h : normalize_item item = some e) :
    ∃ lp, item.userData.lastPlayedDate = some lp ∧ lp ≠ "" ∧
      0 < resolved_runtime item ∧
      e = { title := item.name.getD "Unknown",
            itemType := item.itemType.getD "Unknown",
            series := item.seriesName.getD "",
            runtime_seconds := resolved_runtime item,
            played_date := some (lp.take 10),
            play_count := item.userData.playCount.getD 1 } := by
  cases hlp : item.userData.lastPlayedDate with
  | none => rw [normalize_item_none_date item hlp] at h; exact absurd h (by simp)
  | some lp =>
    simp only [normalize_item, hlp] at h
    by_cases hc : lp ≠ "" ∧ resolved_runtime item > 0
    · rw [if_pos hc] at h
      injection h with h
      exact ⟨lp, rfl, hc.1, hc.2, h.symm⟩
    · rw [if_neg hc] at h; exact absurd h (by simp)

theorem normalize_item_zero_runtime (item : RawItem)
    (h : resolved_runtime item = 0) : normalize_item item = none := by
  cases hlp : item.userData.lastPlayedDate with
  | none => exact normalize_item_none_date item hlp
  | some lp =>
    simp only [normalize_item, hlp]
    rw [if_neg]
    rintro ⟨-, hpos⟩
    rw [h] at hpos
    exact Nat.lt_irrefl 0 hpos

theorem normalize_item_emits (item : RawItem) (lp : String)
    (hlp : item.userData.lastPlayedDate = some lp) (hne : lp ≠ "")
    (hrt : 0 < resolved_runtime item) : (normalize_item item).isSome = true := by
  have hc : lp ≠ "" ∧ resolved_runtime item > 0 := ⟨hne, hrt⟩
  simp only [normalize_item, hlp]
  rw [if_pos hc]
  rfl

/-! ## Lemmas about the additive upsert -/

theorem rowKeyMatch_iff (r : WatchRow) (uid : Nat) (st : String) (d : Int) :
    rowKeyMatch r uid st d = true ↔
      r.user_id = uid ∧ r.server_type = st ∧ r.watch_date = d := by
  simp [rowKeyMatch, Bool.and_eq_true, and_assoc]

theorem rowKeyMatch_upsertUpdate (r : WatchRow) (uid : Nat) (st : String) (d : Int)
    (s : Nat) (uid' : Nat) (st' : String) (d' : Int) :
    rowKeyMatch (upsertUpdate uid st d s r) uid' st' d' = rowKeyMatch r uid' st' d' := by
  unfold upsertUpdate
  split <;> rfl

theorem bucket_count_map_upsert (rows : List WatchRow) (uid : Nat) (st : String)
    (d : Int) (s : Nat) (uid' : Nat) (st' : String) (d' : Int) :
    bucket_count (rows.map (upsertUpdate uid st d s)) uid' st' d'
      = bucket_count rows uid' st' d' := by
  unfold bucket_count
  rw [List.countP_map]
  apply List.countP_congr
  intro r _
  simp [Function.comp, rowKeyMatch_upsertUpdate]

theorem bucket_seconds_map_upsert (rows : List WatchRow) (uid : Nat) (st : String)
    (d : Int) (s : Nat) (uid' : Nat) (st' : String) (d' : Int) :
    bucket_seconds (rows.map (upsertUpdate uid st d s)) uid' st' d'
      = bucket_seconds rows uid' st' d'
        + (rows.countP (fun r => rowKeyMatch r uid st d && rowKeyMatch r uid' st' d')) * s := by
  induction rows with
  | nil => simp [bucket_seconds]
  | cons r rows ih =>
    unfold bucket_seconds at ih ⊢
    simp only [List.map_cons, List.filter_cons, List.countP_cons, rowKeyMatch_upsertUpdate]
    by_cases hk : rowKeyMatch r uid st d = true
    · by_cases hk' : rowKeyMatch r uid' st' d' = true
      · simp only [hk, hk', Bool.and_self, if_true, upsertUpdate, if_pos hk,
          List.map_cons, List.sum_cons]
        rw [ih]
        ring
      · have hkf' := eq_false_of_ne_true hk'
        simp only [hk, hkf', Bool.and_false, Bool.true_and, Bool.false_eq_true,
          if_false]
        simp [ih]
    · have hkf := eq_false_of_ne_true hk
      by_cases hk' : rowKeyMatch r uid' st' d' = true
      · simp only [hkf, hk', if_true, Bool.false_and, Bool.false_eq_true, if_false,
          upsertUpdate, List.map_cons, List.sum_cons]
        rw [ih]
        simp [Nat.add_assoc]
      · have hkf' := eq_false_of_ne_true hk'
        simp only [hkf, hkf', Bool.false_and, Bool.and_false, Bool.false_eq_true,
          if_false, upsertUpdate]
        simp [ih]

theorem bucket_count_le_one_same_key_zero (rows : List WatchRow) (uid : Nat)
    (st : String) (d : Int) (uid' : Nat) (st' : String) (d' : Int)
    (hne : ¬(uid' = uid ∧ st' = st ∧ d' = d)) :
    (rows.countP (fun r => rowKeyMatch r uid st d && rowKeyMatch r uid' st' d')) = 0 := by
  rw [List.countP_eq_zero]
  intro r _
  rw [Bool.and_eq_true, rowKeyMatch_iff, rowKeyMatch_iff]
  rintro ⟨⟨h1, h2, h3⟩, h4, h5, h6⟩
  exact hne ⟨h4.symm.trans h1, h5.symm.trans h2, h6.symm.trans h3⟩

/-! ## Claim C1 -/

/-- C1, counterexample.  The claim: each `by_date` entry equals the sum of
`runtimeSeconds * playCount` over the events of that date, so the
`by_date` values sum to `total_seconds`.  On the event `c1item`
(runtime 10, play count 2) the code puts 10 — the bare runtime — into
`by_date`, while `total_seconds` gets 20, so the claimed equalities fail. -/
theorem c1_counterexample :
    (get_playback_stats [c1item]).total_seconds = 20 ∧
    c1item.runtime_seconds * c1item.play_count = 20 ∧
    (get_playback_stats [c1item]).by_date "2024-01-05" = 10 ∧
    (get_playback_stats [c1item]).by_date "2024-01-05" ≠ 20 ∧
    ((get_playback_stats [c1item]).date_keys.map
        (get_playback_stats [c1item]).by_date).sum
      ≠ (get_playback_stats [c1item]).total_seconds := by
  decide

/-- C1, amended.  For every event list, each per-date entry of the fold
equals the sum of `runtime_seconds` alone — `play_count` is not applied —
over the events attributed to that date, while `total_seconds` sums
`runtime_seconds * play_count`; so the by-date values do not in general
sum to `total_seconds`. -/
theorem c1_by_date_unweighted (l : List HistoryItem) (d : String) :
    (get_playback_stats l).by_date d = byDateOf l d ∧
    (get_playback_stats l).total_seconds = totalSecondsOf l :=
  ⟨get_playback_stats_by_date l d, get_playback_stats_total_seconds l⟩

/-! ## Claim C2 -/

/-- C2.  If any subscription row — active or historical — exists for the
account, the membership evaluation yields `Immune`, whatever the stored
watch buckets, the threshold and the window; in particular it is never
`AtRisk`. -/
theorem c2_immunity_absolute (subs : List SubscriptionRow) (rows : List WatchRow)
    (uid : Nat) (th days : Nat) (today : Int)
    (h : ∃ r ∈ subs, r.user_id = uid) :
    evaluate_standing subs rows uid th days today = Standing.Immune ∧
    evaluate_standing subs rows uid th days today ≠ Standing.AtRisk := by
  have hev : has_ever_subscribed subs uid = true := by
    rcases h with ⟨r, hr, he⟩
    simp only [has_ever_subscribed, List.any_eq_true]
    exact ⟨r, hr, by simp [he]⟩
  refine ⟨?_, ?_⟩ <;> simp [evaluate_standing, hev]

/-- C2, witness: an account with one cancelled, expired subscription row
(`has_active_subscription` is false for it) and zero watched seconds is
still `Immune`. -/
theorem c2_immunity_witness :
    has_active_subscription [c2sub] 1 100 = false ∧
    user_total_watchtime_window [] 1 30 100 = 0 ∧
    evaluate_standing [c2sub] [] 1 4 30 100 = Standing.Immune :=
  ⟨by decide, by decide,
    (c2_immunity_absolute [c2sub] [] 1 4 30 100 (by decide)).1⟩

/-! ## Claim C3 -/

/-- C3.  The five database functions the watchtime-report, total-watchtime,
subscriber-check and sync-all operations rely on are absent from
database.py, so none of these operations can reach its report: whenever
the linked-account guard passes, each ends in the `AttributeError` branch
for the first missing name, and the sync-all form fails on
`get_all_linked_users` unconditionally. -/
theorem c3_missing_database_functions :
    (["has_ever_subscribed", "get_daily_watchtime", "get_all_time_watchtime",
      "get_monthly_watchtime", "get_all_linked_users"].all
        (fun n => !(databaseDefs.contains n))) = true ∧
    (∀ linked : Bool, watchtime_command linked ≠ CmdOutcome.report) ∧
    (∀ linked : Bool, totaltime_command linked ≠ CmdOutcome.report) ∧
    (∀ found : Bool, checksub_command found ≠ CmdOutcome.report) ∧
    sync_all_command ≠ CmdOutcome.report ∧
    watchtime_command true = CmdOutcome.attrError "has_ever_subscribed" ∧
    totaltime_command true = CmdOutcome.attrError "get_all_time_watchtime" ∧
    checksub_command true = CmdOutcome.attrError "has_ever_subscribed" ∧
    sync_all_command = CmdOutcome.attrError "get_all_linked_users" := by
  refine ⟨by decide, fun b => ?_, fun b => ?_, fun b => ?_,
    by decide, by decide, by decide, by decide, by decide⟩ <;> cases b <;> decide

/-! ## Claim C4 -/

/-- C4, counterexample.  The claim: the windowed read sums exactly the
buckets dated in `[today - N + 1, today]`.  With `N = 1` and `today = 100`
the claimed window is `[100, 100]`, which holds 0 seconds of `c4row`
(dated 99) — but `get_watchtime` returns its 3600 seconds, because the
SQL bound is `watch_date >= today - N`. -/
theorem c4_counterexample :
    get_watchtime [c4row] 1 none 1 100 = 3600 ∧
    sumWindow [c4row] 1 (100 - 1 + 1) 100 = 0 ∧
    get_watchtime [c4row] 1 none 1 100 ≠ sumWindow [c4row] 1 (100 - 1 + 1) 100 := by
  decide

/-- C4, amended.  When no stored bucket is future-dated, the windowed read
sums the bucket seconds of the account across all sources over the
inclusive window `[today - N, today]` — `N + 1` distinct dates — and
buckets dated before `today - N` contribute nothing. -/
theorem c4_window_inclusive (rows : List WatchRow) (uid : Nat) (days : Nat)
    (today : Int) (h : ∀ r ∈ rows, r.watch_date ≤ today) :
    get_watchtime rows uid none days today = sumWindow rows uid (today - days) today := by
  unfold get_watchtime sumWindow
  have hfil :
      rows.filter (fun r =>
        r.user_id == uid && decide (today - (days : Int) ≤ r.watch_date) &&
        (match (none : Option String) with
         | some st => r.server_type == st
         | none => true))
      = rows.filter (fun r =>
        r.user_id == uid && decide (today - (days : Int) ≤ r.watch_date) &&
        decide (r.watch_date ≤ today)) := by
    apply List.filter_congr
    intro r hr
    have hd : decide (r.watch_date ≤ today) = true := decide_eq_true (h r hr)
    simp [hd]
  rw [hfil]

/-- C4, witness: the two-source account of `c4rows` (3600 s on one source,
1800 s on the other, both in the 30-day window ending at day 100)
evaluates with 5400 seconds. -/
theorem c4_window_witness :
    get_watchtime c4rows 1 none 30 100 = sumWindow c4rows 1 (100 - 30) 100 ∧
    get_watchtime c4rows 1 none 30 100 = 5400 :=
  ⟨c4_window_inclusive c4rows 1 30 100 (by decide), by decide⟩

/-! ## Claim C5 -/

/-- C5, counterexample.  The claim: a record with positive resolved
runtime but no last-played field is still emitted, dated by the
creation-date fallback or by "today".  `c5raw` has 7200 s of resolved
runtime and a `DateCreated`, but no `LastPlayedDate` — and the normalizer
drops it. -/
theorem c5_counterexample :
    resolved_runtime c5raw = 7200 ∧
    c5raw.userData.lastPlayedDate = none ∧
    c5raw.dateCreated = some "2024-01-01T00:00:00Z" ∧
    normalize_item c5raw = none ∧
    get_watch_history [c5raw] = [] := by
  decide

/-- C5, amended.  The normalizer dates an event only from the explicit
last-played field (truncated to its first 10 characters, `YYYY-MM-DD`):
a record without a non-empty last-played timestamp is dropped — there is
no fallback to the creation date or to the current date — and a record
with a non-empty last-played timestamp and positive resolved runtime is
emitted. -/
theorem c5_no_date_fallback :
    (∀ item : RawItem, item.userData.lastPlayedDate = none →
       normalize_item item = none) ∧
    (∀ (item : RawItem) (e : HistoryItem), normalize_item item = some e →
       ∃ lp, item.userData.lastPlayedDate = some lp ∧ lp ≠ "" ∧
         0 < resolved_runtime item ∧ e.played_date = some (lp.take 10) ∧
         e.runtime_seconds = resolved_runtime item) ∧
    (∀ (item : RawItem) (lp : String), item.userData.lastPlayedDate = some lp →
       lp ≠ "" → 0 < resolved_runtime item → (normalize_item item).isSome = true) := by
  refine ⟨normalize_item_none_date, ?_, normalize_item_emits⟩
  intro item e h
  obtain ⟨lp, hlp, hne, hrt, he⟩ := normalize_item_some item e h
  exact ⟨lp, hlp, hne, hrt, by rw [he], by rw [he]⟩

/-- C5, witness: `c5raw2` carries the last-played timestamp
`2024-01-05T10:00:00Z`; the normalizer emits `c5event`, dated by its
first 10 characters. -/
theorem c5_no_date_fallback_witness :
    (normalize_item c5raw2).isSome = true ∧ normalize_item c5raw2 = some c5event :=
  ⟨c5_no_date_fallback.2.2 c5raw2 "2024-01-05T10:00:00Z" (by decide) (by decide)
      (by decide),
    by decide⟩

/-! ## Claim C6 -/

/-- C6, counterexample.  The claim: a played record with zero play count
is coerced to play count 1, and an event with `play_count = 0` contributes
to no aggregate, the by-date map included.  `c6raw` carries an explicit
`PlayCount` of 0: the normalizer keeps the 0 (only an *absent* play count
defaults to 1), and the aggregation still adds its 100 s runtime to the
by-date map while all the other aggregates stay 0. -/
theorem c6_counterexample :
    c6raw.userData.playCount = some 0 ∧
    normalize_item c6raw = some c6event ∧
    c6event.play_count = 0 ∧
    (get_playback_stats [c6event]).total_seconds = 0 ∧
    (get_playback_stats [c6event]).total_plays = 0 ∧
    (get_playback_stats [c6event]).movies = 0 ∧
    (get_playback_stats [c6event]).by_date "2024-01-05" = 100 := by
  decide

/-- C6, amended.  An absent play count defaults to 1, but an explicit
zero play count is kept as 0.  A zero-play-count event contributes
nothing to `total_seconds`, `total_plays` or the movie/episode counters,
yet still adds its runtime to the by-date map.  A record with zero
resolved runtime is dropped at normalization and reaches no aggregate. -/
theorem c6_zero_play_count :
    (∀ (item : RawItem) (e : HistoryItem), item.userData.playCount = none →
       normalize_item item = some e → e.play_count = 1) ∧
    (∀ (item : RawItem) (e : HistoryItem) (pc : Nat),
       item.userData.playCount = some pc →
       normalize_item item = some e → e.play_count = pc) ∧
    (∀ (s : PlaybackStats) (it : HistoryItem), it.play_count = 0 →
       (statsStep s it).total_seconds = s.total_seconds ∧
       (statsStep s it).total_plays = s.total_plays ∧
       (statsStep s it).movies = s.movies ∧
       (statsStep s it).episodes = s.episodes) ∧
    (∀ (s : PlaybackStats) (it : HistoryItem) (d : String), it.played_date = some d →
       d ≠ "" → (statsStep s it).by_date d = s.by_date d + it.runtime_seconds) ∧
    (∀ item : RawItem, resolved_runtime item = 0 → normalize_item item = none) := by
  refine ⟨?_, ?_, ?_, ?_, normalize_item_zero_runtime⟩
  · intro item e hpc h
    obtain ⟨lp, hlp, hne, hrt, he⟩ := normalize_item_some item e h
    rw [he, hpc]
    rfl
  · intro item e pc hpc h
    obtain ⟨lp, hlp, hne, hrt, he⟩ := normalize_item_some item e h
    rw [he, hpc]
    rfl
  · intro s it h
    refine ⟨?_, ?_, ?_, ?_⟩
    · rw [statsStep_total_seconds, h, Nat.mul_zero, Nat.add_zero]
    · rw [statsStep_total_plays, h, Nat.add_zero]
    · rw [statsStep_movies, h]
      split <;> rfl
    · rw [statsStep_episodes, h]
      split <;> rfl
  · intro s it d hd hne
    rw [statsStep_by_date, if_pos ⟨hd, hne⟩]

/-- C6, witness: applying the amended facts at the zero-play-count event
`c6event` over the fresh stats record. -/
theorem c6_zero_play_count_witness :
    c6event.play_count = 0 ∧
    (statsStep emptyStats c6event).total_seconds = emptyStats.total_seconds ∧
    (statsStep emptyStats c6event).by_date "2024-01-05"
      = emptyStats.by_date "2024-01-05" + c6event.runtime_seconds :=
  ⟨by decide,
    (c6_zero_play_count.2.2.1 emptyStats c6event (by decide)).1,
    c6_zero_play_count.2.2.2.1 emptyStats c6event "2024-01-05" (by decide) (by decide)⟩

/-! ## Claim C7 -/

/-- C7, counterexample.  The claim: a failed fetch is recorded in the run
summary as a failure for that source.  In the run over `c7user` — whose
Jellyfin fetch fails while the Emby fetch returns one 7200 s movie — the
failed list stays empty: the failure is absorbed to zero events, the user
is reported as synced with 7200 s, and nothing marks the failed source. -/
theorem c7_counterexample :
    c7user.jellyfinFetch = FetchResult.failed ∧
    fetched_history c7user.jellyfinFetch = [] ∧
    (sync_run c7cfg [c7user] [] c7dateVal).failed = [] ∧
    (sync_run c7cfg [c7user] [] c7dateVal).synced = [7] ∧
    (sync_run c7cfg [c7user] [] c7dateVal).totalSeconds = 7200 := by
  decide

/-- C7, amended.  A failed fetch for one `(account, source)` pair yields
zero events for that pair and is indistinguishable from a successful
empty fetch — it is not recorded in the run summary, whose failed list
stays empty on every run; fetching and persisting for the other source
and for the remaining accounts proceed exactly as they would have. -/
theorem c7_failure_isolated :
    (∀ h : List HistoryItem, fetched_history (FetchResult.ok h) = h) ∧
    fetched_history FetchResult.failed = [] ∧
    (∀ (cfg : SyncConfig) (u : SyncUser) (db : List WatchRow) (dateVal : String → Int),
       sync_one_user cfg { u with jellyfinFetch := FetchResult.failed } db dateVal
         = sync_one_user cfg { u with jellyfinFetch := FetchResult.ok [] } db dateVal) ∧
    (∀ (cfg : SyncConfig) (u : SyncUser) (db : List WatchRow) (dateVal : String → Int),
       sync_one_user cfg { u with embyFetch := FetchResult.failed } db dateVal
         = sync_one_user cfg { u with embyFetch := FetchResult.ok [] } db dateVal) ∧
    (∀ (cfg : SyncConfig) (users : List SyncUser) (db : List WatchRow)
       (dateVal : String → Int), (sync_run cfg users db dateVal).failed = []) ∧
    (∀ (cfg : SyncConfig) (u : SyncUser) (rest : List SyncUser) (db : List WatchRow)
       (dateVal : String → Int),
       sync_run cfg ({ u with jellyfinFetch := FetchResult.failed } :: rest) db dateVal
         = sync_run cfg ({ u with jellyfinFetch := FetchResult.ok [] } :: rest) db dateVal) := by
  have aux : ∀ (cfg : SyncConfig) (dateVal : String → Int) (us : List SyncUser)
      (acc : SyncSummary),
      (us.foldl (sync_loop_step cfg dateVal) acc).failed = acc.failed := by
    intro cfg dateVal us
    induction us with
    | nil => intro acc; rfl
    | cons u us ih =>
      intro acc
      rw [List.foldl_cons, ih]
      unfold sync_loop_step
      split <;> rfl
  exact ⟨fun h => rfl, rfl, fun cfg u db dv => rfl, fun cfg u db dv => rfl,
    fun cfg users db dv => aux cfg dv users _, fun cfg u rest db dv => rfl⟩

/-! ## Claim C8 -/

/-- C8.  The upsert is additive per `(user_id, server_type, watch_date)`
key: on a table holding at most one row for the key, the upsert leaves
exactly one row for it, carrying the old seconds plus the delta (the
delta itself when no row existed), and every other key's rows and seconds
are untouched. -/
theorem c8_additive_upsert (rows : List WatchRow) (uid : Nat) (st : String)
    (d : Int) (s : Nat) (h : bucket_count rows uid st d ≤ 1) :
    bucket_count (add_watchtime rows uid st d s) uid st d = 1 ∧
    bucket_seconds (add_watchtime rows uid st d s) uid st d
      = bucket_seconds rows uid st d + s ∧
    (∀ (uid' : Nat) (st' : String) (d' : Int), ¬(uid' = uid ∧ st' = st ∧ d' = d) →
       bucket_count (add_watchtime rows uid st d s) uid' st' d'
         = bucket_count rows uid' st' d' ∧
       bucket_seconds (add_watchtime rows uid st d s) uid' st' d'
         = bucket_seconds rows uid' st' d') := by
  have hnew : rowKeyMatch ⟨uid, st, d, s⟩ uid st d = true := by
    simp [rowKeyMatch]
  unfold add_watchtime
  by_cases hany : rows.any (fun r => rowKeyMatch r uid st d) = true
  · rw [if_pos hany]
    have hpos : 0 < bucket_count rows uid st d := by
      unfold bucket_count
      rw [List.countP_pos_iff]
      obtain ⟨r, hr, hk⟩ := List.any_eq_true.mp hany
      exact ⟨r, hr, hk⟩
    have hone : bucket_count rows uid st d = 1 := Nat.le_antisymm h hpos
    have hsame : (rows.countP (fun r => rowKeyMatch r uid st d && rowKeyMatch r uid st d))
        = bucket_count rows uid st d := by
      unfold bucket_count
      apply List.countP_congr
      intro r _
      simp [Bool.and_self]
    refine ⟨?_, ?_, ?_⟩
    · rw [bucket_count_map_upsert, hone]
    · rw [bucket_seconds_map_upsert, hsame, hone, Nat.one_mul]
    · intro uid' st' d' hne
      refine ⟨bucket_count_map_upsert rows uid st d s uid' st' d', ?_⟩
      rw [bucket_seconds_map_upsert,
        bucket_count_le_one_same_key_zero rows uid st d uid' st' d' hne,
        Nat.zero_mul, Nat.add_zero]
  · rw [if_neg hany]
    have hzero : ∀ r ∈ rows, ¬ rowKeyMatch r uid st d = true := by
      intro r hr
      exact fun hk => hany (List.any_eq_true.mpr ⟨r, hr, hk⟩)
    have hcount0 : bucket_count rows uid st d = 0 := by
      unfold bucket_count
      rw [List.countP_eq_zero]
      exact hzero
    have hfil0 : rows.filter (fun r => rowKeyMatch r uid st d) = [] := by
      rw [List.filter_eq_nil_iff]
      exact hzero
    refine ⟨?_, ?_, ?_⟩
    · unfold bucket_count
      rw [List.countP_append, List.countP_eq_zero.mpr hzero]
      simp [hnew]
    · unfold bucket_seconds
      rw [List.filter_append, hfil0]
      simp [hnew, bucket_seconds, hfil0]
    · intro uid' st' d' hne
      have hnew' : rowKeyMatch ⟨uid, st, d, s⟩ uid' st' d' = false := by
        rw [Bool.eq_false_iff]
        intro hk
        rw [rowKeyMatch_iff] at hk
        exact hne ⟨hk.1.symm, hk.2.1.symm, hk.2.2.symm⟩
      constructor
      · unfold bucket_count
        rw [List.countP_append]
        simp [hnew']
      · unfold bucket_seconds
        rw [List.filter_append]
        simp [hnew']

/-- C8, witness: upserting 100 then 50 under one key on the empty table
leaves exactly one bucket for the key, holding 150 seconds. -/
theorem c8_additive_upsert_witness :
    bucket_count (add_watchtime (add_watchtime [] 1 "jellyfin" 0 100) 1 "jellyfin" 0 50)
      1 "jellyfin" 0 = 1 ∧
    bucket_seconds (add_watchtime (add_watchtime [] 1 "jellyfin" 0 100) 1 "jellyfin" 0 50)
      1 "jellyfin" 0 = 150 := by
  have h := c8_additive_upsert (add_watchtime [] 1 "jellyfin" 0 100) 1 "jellyfin" 0 50
    (by decide)
  refine ⟨h.1, ?_⟩
  rw [h.2.1]
  decide

/-! ## Claim C9 -/

/-- C9.  Membership in the at-risk list is exactly a strict comparison of
the windowed all-source total against `threshold_hours * 3600`; so the
safe side of the boundary is non-strict: with threshold 4 h, an account
with exactly 14400 s is not at risk, and one with 14399 s is. -/
theorem c9_threshold_boundary :
    (∀ (users : List Nat) (rows : List WatchRow) (th days : Nat) (today : Int)
       (uid : Nat),
       uid ∈ get_users_at_risk users rows th days today ↔
         uid ∈ users ∧ user_total_watchtime_window rows uid days today < th * 3600) ∧
    user_total_watchtime_window [⟨1, "jellyfin", 100, 14400⟩] 1 30 100 = 14400 ∧
    get_users_at_risk [1] [⟨1, "jellyfin", 100, 14400⟩] 4 30 100 = [] ∧
    user_total_watchtime_window [⟨1, "jellyfin", 100, 14399⟩] 1 30 100 = 14399 ∧
    get_users_at_risk [1] [⟨1, "jellyfin", 100, 14399⟩] 4 30 100 = [1] := by
  refine ⟨?_, by decide, by decide, by decide, by decide⟩
  intro users rows th days today uid
  simp [get_users_at_risk, List.mem_filter]

/-! ## Claim C10 -/

/-- C10.  The aggregation fold is permutation-invariant: any reordering of
the event list yields the same `total_seconds`, `total_plays`, movie and
episode counters, the same by-date mapping, and the same by-date key set
(the key lists are permutations of each other, i.e. equal as Python
dicts). -/
theorem c10_aggregation_commutative (l₁ l₂ : List HistoryItem)
    (h : List.Perm l₁ l₂) :
    (get_playback_stats l₁).total_seconds = (get_playback_stats l₂).total_seconds ∧
    (get_playback_stats l₁).total_plays = (get_playback_stats l₂).total_plays ∧
    (get_playback_stats l₁).movies = (get_playback_stats l₂).movies ∧
    (get_playback_stats l₁).episodes = (get_playback_stats l₂).episodes ∧
    (get_playback_stats l₁).by_date = (get_playback_stats l₂).by_date ∧
    List.Perm (get_playback_stats l₁).date_keys (get_playback_stats l₂).date_keys := by
  refine ⟨?_, ?_, ?_, ?_, ?_, ?_⟩
  · rw [get_playback_stats_total_seconds, get_playback_stats_total_seconds,
      totalSecondsOf, totalSecondsOf]
    exact (h.map _).sum_eq
  · rw [get_playback_stats_total_plays, get_playback_stats_total_plays,
      totalPlaysOf, totalPlaysOf]
    exact (h.map _).sum_eq
  · rw [get_playback_stats_movies, get_playback_stats_movies, moviesOf, moviesOf]
    exact (h.map _).sum_eq
  · rw [get_playback_stats_episodes, get_playback_stats_episodes,
      episodesOf, episodesOf]
    exact (h.map _).sum_eq
  · funext d
    rw [get_playback_stats_by_date, get_playback_stats_by_date, byDateOf, byDateOf]
    exact (h.map _).sum_eq
  · rw [List.perm_ext_iff_of_nodup (get_playback_stats_date_keys_nodup l₁)
      (get_playback_stats_date_keys_nodup l₂)]
    intro x
    rw [get_playback_stats_date_keys_mem, get_playback_stats_date_keys_mem]
    constructor
    · rintro ⟨it, hm, hp⟩
      exact ⟨it, h.mem_iff.mp hm, hp⟩
    · rintro ⟨it, hm, hp⟩
      exact ⟨it, h.mem_iff.mpr hm, hp⟩

/-- C10, witness: swapping a two-event list leaves every aggregate and the
by-date map unchanged. -/
theorem c10_aggregation_commutative_witness :
    (get_playback_stats [c1item, c5event]).total_seconds
      = (get_playback_stats [c5event, c1item]).total_seconds ∧
    (get_playback_stats [c1item, c5event]).total_plays
      = (get_playback_stats [c5event, c1item]).total_plays ∧
    (get_playback_stats [c1item, c5event]).movies
      = (get_playback_stats [c5event, c1item]).movies ∧
    (get_playback_stats [c1item, c5event]).episodes
      = (get_playback_stats [c5event, c1item]).episodes ∧
    (get_playback_stats [c1item, c5event]).by_date
      = (get_playback_stats [c5event, c1item]).by_date ∧
    List.Perm (get_playback_stats [c1item, c5event]).date_keys
      (get_playback_stats [c5event, c1item]).date_keys :=
  c10_aggregation_commutative [c1item, c5event] [c5event, c1item]
    (List.Perm.swap c5event c1item [])

end MediaBot
